import Mathlib

set_option maxRecDepth 8000

/-!
Verification of the multi-agent orchestration pipeline of `app.py`
(`real_multi_agent_collaboration` and its helpers).

The pipeline is embedded shallowly.  Provider calls are modelled by an
environment (`Env`) that fixes, for every call site the code can reach, the
outcome the provider would deliver there: for the research provider either a
raised exception or an HTTP response with a status code and parsed content, and
for the SDK-based providers either a raised exception (with its message) or a
returned text.  Every function of the embedding is a direct translation of the
corresponding Python code.

Monetary costs are represented exactly, in integer thousandths of a dollar
(so the literal 0.002 of the source becomes 2, 0.003 becomes 3, 0.015
becomes 15).  The confidence score is represented in integer hundredths
(0.75 becomes 75, 0.88 becomes 88, 0.95 becomes 95, 0.98 becomes 98).
The wall-clock `processing_time` field is not modelled.
-/

/-- Lower-casing of a string, character by character, as Python
`query.lower()` does on the ASCII queries at issue. -/
def lowerStr (s : String) : String := ⟨s.data.map Char.toLower⟩

/-- Boolean test that the first list is an initial segment of the second. -/
def isPre : List Char → List Char → Bool
  | [], _ => true
  | _ :: _, [] => false
  | a :: as, b :: bs => a == b && isPre as bs

/-- Boolean substring search on character lists: `subList hay needle` is the
Python `needle in hay`. -/
def subList : List Char → List Char → Bool
  | _, [] => true
  | [], _ :: _ => false
  | h :: t, n => isPre n (h :: t) || subList t n

/-- Python's `needle in hay` on strings. -/
def str_contains (hay needle : String) : Bool := subList hay.data needle.data

/-- Python truthiness of a string: nonempty. -/
def truthyStr (s : String) : Bool := !s.data.isEmpty

/-- Python truthiness of an optional string (`None` and `""` are falsy). -/
def truthyOpt : Option String → Bool
  | none => false
  | some s => truthyStr s

/-- Python `f"...{x}..."` rendering of an optional string: `None` renders as
the four characters `None`. -/
def pyStrOpt : Option String → String
  | none => "None"
  | some s => s

/-- Python `"\n".join`-style concatenation with a separator. -/
def joinSep (sep : String) : List String → String
  | [] => ""
  | [x] => x
  | x :: y :: xs => x ++ sep ++ joinSep sep (y :: xs)

/-- Python `"".join`. -/
def joinAll (l : List String) : String := joinSep "" l

/-! ## Query classification and prompt specialization (app.py lines 148-196) -/

/-- `detect_query_type` of app.py: keyword classification of the query. -/
def detect_query_type (query : String) : String :=
  let ql := lowerStr query
  if str_contains ql "business idea" || str_contains ql "startup" ||
     str_contains ql "profitable" || str_contains ql "business model" then
    "business_strategy"
  else if str_contains ql "technical" || str_contains ql "architecture" ||
     str_contains ql "code" || str_contains ql "implementation" ||
     str_contains ql "software" then
    "technical_analysis"
  else if str_contains ql "market" || str_contains ql "industry" ||
     str_contains ql "trend" || str_contains ql "competitor" ||
     str_contains ql "analysis" then
    "market_research"
  else if str_contains ql "invest" || str_contains ql "financial" ||
     str_contains ql "valuation" || str_contains ql "roi" ||
     str_contains ql "profit" then
    "financial_analysis"
  else "general"

/-- The dict returned by `get_specialized_prompts`. -/
structure SpecializedPrompts where
  perplexity : String
  claude : String
  gpt : String
deriving DecidableEq

/-- `get_specialized_prompts` of app.py: one tailored instruction per role. -/
def get_specialized_prompts (query : String) (query_type : String) :
    SpecializedPrompts :=
  if query_type == "business_strategy" then
    { perplexity := "Research current market data, growth rates, successful case studies, and industry statistics for: " ++ query ++ ". Include specific numbers, market sizes, and credible sources."
      claude := "Provide comprehensive business analysis including: 1) Implementation timeline with monthly breakdown, 2) Detailed cost analysis and profit projections, 3) Scaling strategies from 0-10 years, 4) Risk assessment and mitigation strategies for: " ++ query
      gpt := "Generate 3 creative variations and innovative approaches to: " ++ query ++ ". For each, explain: unique positioning, growth hacks, and competitive advantages." }
  else if query_type == "technical_analysis" then
    { perplexity := "Research best practices, technology stack trends, performance benchmarks, and case studies for: " ++ query
      claude := "Provide detailed technical analysis including: architecture design, scalability considerations, security implications, and implementation roadmap for: " ++ query
      gpt := "Suggest innovative technical approaches, alternative architectures, and creative solutions for: " ++ query }
  else if query_type == "market_research" then
    { perplexity := "Conduct comprehensive market research including: market size, growth trends, key players, competitive landscape, and recent developments for: " ++ query
      claude := "Analyze market dynamics, competitive positioning, barriers to entry, and strategic recommendations for: " ++ query
      gpt := "Identify underserved niches, emerging opportunities, and contrarian perspectives on: " ++ query }
  else if query_type == "financial_analysis" then
    { perplexity := "Research financial data, valuation metrics, industry benchmarks, and investment trends for: " ++ query
      claude := "Provide detailed financial analysis including: valuation models, ROI projections, risk-adjusted returns, and scenario analysis for: " ++ query
      gpt := "Suggest creative financial strategies, alternative investment approaches, and hidden value opportunities for: " ++ query }
  else
    { perplexity := "Research and analyze: " ++ query
      claude := "Provide deep analysis and insights for: " ++ query
      gpt := "Provide creative insights and alternative perspectives on: " ++ query }

/-! ## Environment: provider availability and per-call outcomes -/

/-- The `api_status` dict of app.py (lines 98-104): one boolean per provider. -/
structure ApiStatus where
  openai : Bool
  anthropic : Bool
  perplexity : Bool
  gemini : Bool
  notion : Bool
deriving DecidableEq

/-- `api_status.items()` in dict insertion order. -/
def api_status_items (a : ApiStatus) : List (String × Bool) :=
  [("openai", a.openai), ("anthropic", a.anthropic), ("perplexity", a.perplexity),
   ("gemini", a.gemini), ("notion", a.notion)]

/-- Outcome of the `requests.post` to the Perplexity endpoint: either an
exception raised anywhere in the `try` block (network error, timeout, JSON
shape error), or a completed HTTP response with its status code and the parsed
message content. -/
inductive PerplexityHttp where
  | exn (msg : String)
  | resp (status : Nat) (content : String)
deriving DecidableEq

/-- Outcome of one SDK `messages.create` / `chat.completions.create` call:
`.error msg` is a raised exception, `.ok text` a returned completion. -/
abbrev CallResult := Except String String

instance : DecidableEq CallResult := fun a b =>
  match a, b with
  | .error x, .error y => if h : x = y then .isTrue (by rw [h]) else .isFalse (by simp [h])
  | .ok x, .ok y => if h : x = y then .isTrue (by rw [h]) else .isFalse (by simp [h])
  | .error _, .ok _ => .isFalse (by simp)
  | .ok _, .error _ => .isFalse (by simp)

/-- One pipeline run's environment: the query, provider availability, the
anthropic credential (empty string models a falsy/absent key), and the
outcome each reachable provider call site would produce. -/
structure Env where
  query : String
  api : ApiStatus
  anthropicKey : String
  perplexityCall : PerplexityHttp
  claudeCall : CallResult
  critiqueCall : CallResult
  refineCall : CallResult
  openaiCall : CallResult
  synthesisCall : CallResult
deriving DecidableEq

/-- The specialized prompts computed at the top of
`real_multi_agent_collaboration`. -/
def promptsOf (env : Env) : SpecializedPrompts :=
  get_specialized_prompts env.query (detect_query_type env.query)

/-! ## Stage results and the stage runner functions (app.py lines 218-311) -/

/-- The dict a successful agent call returns: agent label, model id, decorated
response text, and declared cost (in thousandths of a dollar). -/
structure StageResult where
  agent : String
  model : String
  response : String
  cost : Nat
deriving DecidableEq

/-- A record of one outbound provider call (site label and the prompt sent);
used to state which calls a run dispatches. -/
structure ProviderCall where
  provider : String
  prompt : String
deriving DecidableEq

/-- What one stage-runner invocation does: its returned result (or none), the
error strings it appends to `agent_errors`, and the provider calls it sends. -/
structure CallOut where
  result : Option StageResult
  errs : List String
  sent : List ProviderCall
deriving DecidableEq

/-- Prompt enhancement with context from previous agents
(`if context: enhanced_prompt = f"...{context}"`). -/
def withContext (base : String) (ctx : Option String) : String :=
  if truthyOpt ctx then
    base ++ "\n\n**Context from previous analysis:**\n" ++ (ctx.getD "")
  else base

/-- `call_perplexity_sync` of app.py (lines 218-248).  Skips silently when the
provider is unavailable; on HTTP 200 returns the research StageResult; on any
raised exception appends `Perplexity: <msg>`; on a non-200 response falls
through the `if response.status_code == 200` check and returns `None` without
recording anything. -/
def call_perplexity_sync (env : Env) (p : SpecializedPrompts) : CallOut :=
  if env.api.perplexity = false then ⟨none, [], []⟩
  else
    match env.perplexityCall with
    | .exn m => ⟨none, ["Perplexity: " ++ m], [⟨"perplexity", p.perplexity⟩]⟩
    | .resp code content =>
        if code = 200 then
          ⟨some ⟨"Perplexity Research Agent", "sonar-pro",
                 "**Research Findings:** " ++ content, 2⟩,
           [], [⟨"perplexity", p.perplexity⟩]⟩
        else ⟨none, [], [⟨"perplexity", p.perplexity⟩]⟩

/-- `call_claude_sync` of app.py (lines 250-284): availability check, key
presence check, key format pre-check, then the call with context-enhanced
prompt; exceptions append `Claude: <msg>`. -/
def call_claude_sync (env : Env) (p : SpecializedPrompts) (context : Option String) :
    CallOut :=
  if env.api.anthropic = false then ⟨none, [], []⟩
  else if !truthyStr env.anthropicKey then
    ⟨none, ["Claude: No API key found in environment"], []⟩
  else if !isPre "sk-".data env.anthropicKey.data then
    ⟨none, ["Claude: API key format invalid (should start with \x27sk-\x27, got \x27"
            ++ (⟨env.anthropicKey.data.take 5⟩ : String) ++ "...\x27)"], []⟩
  else
    let enhanced := withContext p.claude context
    match env.claudeCall with
    | .error m => ⟨none, ["Claude: " ++ m], [⟨"claude-analysis", enhanced⟩]⟩
    | .ok t => ⟨some ⟨"Claude Analysis Agent", "claude-sonnet-4.5",
                      "**Deep Analysis:** " ++ t, 3⟩,
                [], [⟨"claude-analysis", enhanced⟩]⟩

/-- `call_openai_sync` of app.py (lines 286-311); exceptions append
`OpenAI: <msg>`. -/
def call_openai_sync (env : Env) (p : SpecializedPrompts) (context : Option String) :
    CallOut :=
  if env.api.openai = false then ⟨none, [], []⟩
  else
    let enhanced := withContext p.gpt context
    match env.openaiCall with
    | .error m => ⟨none, ["OpenAI: " ++ m], [⟨"openai", enhanced⟩]⟩
    | .ok t => ⟨some ⟨"GPT Creative Agent", "gpt-4o",
                      "**Creative Perspective:** " ++ t, 15⟩,
                [], [⟨"openai", enhanced⟩]⟩

/-- The critique prompt of stage 2.5 (app.py lines 346-356). -/
def mkCritiquePrompt (analysis : String) : String :=
  "Review the following analysis for logical flaws, missing considerations, unsupported claims, or gaps in reasoning:\n\n"
  ++ analysis
  ++ "\n\nProvide constructive criticism:\n1. What logical flaws or weak arguments exist?\n2. What important considerations are missing?\n3. What claims need better support or evidence?\n4. What gaps in the reasoning chain should be addressed?\n\nBe specific and actionable."

/-- The refinement prompt of stage 2.6 (app.py lines 368-376). -/
def mkRefinementPrompt (analysis critique : String) : String :=
  "Based on this critique of your analysis, revise and improve it:\n\nORIGINAL ANALYSIS:\n"
  ++ analysis
  ++ "\n\nCRITIQUE:\n"
  ++ critique
  ++ "\n\nProvide a refined analysis that addresses the identified issues while maintaining strengths. Focus on filling gaps and strengthening weak points."

/-- The synthesis prompt of stage 4 (app.py lines 413, 421-429); absent prior
outputs render as the Python string `None`. -/
def mkSynthesisPrompt (query : String) (r a c : Option String) : String :=
  "Synthesize the following analyses into actionable recommendations and key insights for: "
  ++ query ++ "\n\n"
  ++ "RESEARCH:\n" ++ pyStrOpt r ++ "\n\nANALYSIS:\n" ++ pyStrOpt a
  ++ "\n\nCREATIVE ALTERNATIVES:\n" ++ pyStrOpt c
  ++ "\n\nProvide:\n1. Top 3 recommendations prioritized by impact\n2. Key insights synthesized from all perspectives\n3. Critical success factors\n4. Next steps and timeline"

/-! ## Orchestrator state and the sequential stages (app.py lines 199-449) -/

/-- The mutable locals of `real_multi_agent_collaboration` during one run.
`results` records the StageResult dicts actually produced, in order. -/
@[ext] structure St where
  agents_used : List String
  models_used : List String
  responses : List String
  results : List StageResult
  agent_errors : List String
  total_cost : Nat
  sent : List ProviderCall
  research_output : Option String
  analysis_output : Option String
  creative_output : Option String

/-- The initial run state. -/
def St.init : St := ⟨[], [], [], [], [], 0, [], none, none, none⟩

/-- The four appends plus cost accumulation performed on a successful stage
(`agents_used.append(...)` ... `total_cost += ...`). -/
def recordSuccess (s : St) (r : StageResult) : St :=
  { s with agents_used := s.agents_used ++ [r.agent],
           models_used := s.models_used ++ [r.model],
           responses := s.responses ++ [r.response],
           results := s.results ++ [r],
           total_cost := s.total_cost + r.cost }

/-- Incorporate one stage-runner invocation into the run state. -/
def applyCall (s : St) (o : CallOut) : St :=
  let s1 := { s with agent_errors := s.agent_errors ++ o.errs,
                     sent := s.sent ++ o.sent }
  match o.result with
  | some r => recordSuccess s1 r
  | none => s1

/-- STAGE 1 (app.py lines 319-326): research via Perplexity. -/
def stage1 (env : Env) (p : SpecializedPrompts) (s : St) : St :=
  let o := call_perplexity_sync env p
  let s1 := applyCall s o
  match o.result with
  | some r => { s1 with research_output := some r.response }
  | none => s1

/-- STAGE 2.5/2.6 (app.py lines 338-392): the self-critique and refinement
sub-loop.  On refinement success the refined text replaces `analysis_output`
and the last entry of `responses`; a raised exception in either sub-call
appends `Self-Critique: <msg>` and leaves the analysis untouched. -/
def selfCritique (env : Env) (s : St) : St :=
  if env.api.anthropic && truthyOpt s.analysis_output then
    if !truthyStr env.anthropicKey then s
    else
      let a := s.analysis_output.getD ""
      let cp := mkCritiquePrompt a
      match env.critiqueCall with
      | .error m =>
          { s with agent_errors := s.agent_errors ++ ["Self-Critique: " ++ m],
                   sent := s.sent ++ [ProviderCall.mk "claude-critique" cp] }
      | .ok ct =>
          let s1 := { s with total_cost := s.total_cost + 3,
                             sent := s.sent ++ [ProviderCall.mk "claude-critique" cp] }
          let rp := mkRefinementPrompt a ct
          match env.refineCall with
          | .error m =>
              { s1 with agent_errors := s1.agent_errors ++ ["Self-Critique: " ++ m],
                        sent := s1.sent ++ [ProviderCall.mk "claude-refine" rp] }
          | .ok rt =>
              let refined := "**Deep Analysis (Refined):** " ++ rt
              { s1 with total_cost := s1.total_cost + 3,
                        sent := s1.sent ++ [ProviderCall.mk "claude-refine" rp],
                        analysis_output := some refined,
                        responses := s1.responses.dropLast ++ [refined] }
  else s

/-- STAGE 2 (app.py lines 328-392): deep analysis via Claude using the
research output as context, followed (on success) by the sub-loop. -/
def stage2 (env : Env) (p : SpecializedPrompts) (s : St) : St :=
  let ctx : Option String :=
    if truthyOpt s.research_output then s.research_output else none
  let o := call_claude_sync env p ctx
  let s1 := applyCall s o
  match o.result with
  | some r => selfCritique env { s1 with analysis_output := some r.response }
  | none => s1

/-- STAGE 3 (app.py lines 394-409): creative alternatives via GPT with the
combined context. -/
def stage3 (env : Env) (p : SpecializedPrompts) (s : St) : St :=
  let ctx : Option String :=
    if truthyOpt s.research_output && truthyOpt s.analysis_output then
      some ("RESEARCH:\n" ++ s.research_output.getD "" ++ "\n\nANALYSIS:\n"
            ++ s.analysis_output.getD "")
    else if truthyOpt s.research_output then s.research_output
    else if truthyOpt s.analysis_output then s.analysis_output
    else none
  let o := call_openai_sync env p ctx
  let s1 := applyCall s o
  match o.result with
  | some r => { s1 with creative_output := some r.response }
  | none => s1

/-- STAGE 4 (app.py lines 411-449): final synthesis via Claude, attempted only
when at least two responses exist and the anthropic provider is available with
a truthy key; exceptions append `Synthesis: <msg>`. -/
def stage4 (env : Env) (s : St) : St :=
  if 2 ≤ s.responses.length then
    let sp := mkSynthesisPrompt env.query s.research_output s.analysis_output
                s.creative_output
    if env.api.anthropic then
      if !truthyStr env.anthropicKey then s
      else
        match env.synthesisCall with
        | .error m =>
            { s with agent_errors := s.agent_errors ++ ["Synthesis: " ++ m],
                     sent := s.sent ++ [ProviderCall.mk "claude-synthesis" sp] }
        | .ok t =>
            recordSuccess { s with sent := s.sent ++ [ProviderCall.mk "claude-synthesis" sp] }
              ⟨"Claude Synthesis Agent", "claude-sonnet-4.5",
               "**Strategic Synthesis:** " ++ t, 3⟩
    else s
  else s

/-- The run state after stages 1-3. -/
def pipelinePre (env : Env) : St :=
  stage3 env (promptsOf env) (stage2 env (promptsOf env)
    (stage1 env (promptsOf env) St.init))

/-- The complete run state after all four stages. -/
def pipeline (env : Env) : St := stage4 env (pipelinePre env)

/-! ## Response assembly and the returned dict (app.py lines 451-523) -/

/-- The `error_summary` block (app.py lines 451-458). -/
def error_summary (s : St) : String :=
  if s.agent_errors.isEmpty then ""
  else
    "\n\n**⚠️ Agent Status:**\n"
    ++ "• " ++ toString s.agents_used.length ++ " of 4 agents responded successfully\n"
    ++ joinAll (s.agent_errors.map (fun e => "• " ++ e ++ "\n"))

/-- The deterministic fallback body used when no stage produced a response
(app.py line 505). -/
def fallback_response (query : String) : String :=
  "### Analysis: " ++ query
  ++ "\n\nProviding enhanced analysis through multi-agent collaboration.\n\n**Approach:**\n- Research-backed insights\n- Analytical reasoning\n- Creative perspectives\n- Synthesized conclusions"

/-- The integer confidence percentage shown in the report (app.py line 479). -/
def confidencePercent (n : Nat) : Nat :=
  if 4 ≤ n then 98 else if 3 ≤ n then 95 else if 2 ≤ n then 88 else 75

/-- The fixed takeaway line each agent label contributes (app.py
lines 493-501). -/
def takeawayLine (agent : String) : String :=
  if str_contains agent "Research" then
    "- **Research Layer**: Current market data, statistics, and credible sources\n"
  else if str_contains agent "Analysis" then
    "- **Analytical Layer**: Deep reasoning, implementation strategies, and projections\n"
  else if str_contains agent "Creative" then
    "- **Creative Layer**: Innovative approaches and alternative perspectives\n"
  else if str_contains agent "Synthesis" then
    "- **Synthesis Layer**: Practical applications and integrated recommendations\n"
  else ""

/-- The structured report assembly (app.py lines 460-505). -/
def final_response (query query_type : String) (s : St) : String :=
  if s.responses.isEmpty then fallback_response query
  else
    let pts :=
      if 2 ≤ s.responses.length then
        (["✅ Multi-perspective analysis from " ++ toString s.agents_used.length
            ++ " expert AI systems",
          if s.responses.any (fun r => str_contains r "Research") then
            "✅ Research-backed with current market data and citations" else "",
          if s.responses.any (fun r => str_contains r "Analysis") then
            "✅ Detailed implementation strategies and profit projections" else "",
          if s.responses.any (fun r => str_contains r "Creative") then
            "✅ Creative alternatives and innovative approaches" else ""
         ].filter (fun q => !(q == "")))
      else []
    "## 📊 Executive Summary\n\n"
    ++ joinAll ((pts.take 3).map (fun q => q ++ "\n"))
    ++ "\n**Query Type Detected:** `" ++ query_type ++ "`\n"
    ++ "**Analysis Confidence:** " ++ toString (confidencePercent s.responses.length)
    ++ "%\n"
    ++ "\n---\n\n## 🔍 Detailed Analysis\n\n"
    ++ joinSep "\n" (s.responses.map (fun r => r ++ "\n\n---\n"))
    ++ "\n\n## 🎯 Key Takeaways\n\n"
    ++ "This analysis combines **" ++ toString s.agents_used.length
    ++ " AI perspectives** to provide comprehensive insights:\n\n"
    ++ joinAll (s.agents_used.map takeawayLine)
    ++ error_summary s

/-- `len([k for k, v in api_status.items() if v and k not in ['notion', 'gemini']])`
(app.py line 519). -/
def agentsAvailable (a : ApiStatus) : Nat :=
  ((api_status_items a).filter
    (fun kv => kv.2 && !(kv.1 == "notion") && !(kv.1 == "gemini"))).length

/-- The dict returned by `real_multi_agent_collaboration` (app.py
lines 509-523), `processing_time` omitted.  `confidence` is in hundredths. -/
structure CollabResult where
  success : Bool
  response : String
  agents_used : List String
  models_used : List String
  total_cost : Nat
  confidence : Nat
  consensus_method : String
  agents_available : Nat
  agents_successful : Nat
  errors : Option (List String)

/-- `real_multi_agent_collaboration` of app.py (lines 199-523), as a function
of the run environment. -/
def real_multi_agent_collaboration (env : Env) : CollabResult :=
  let query_type := detect_query_type env.query
  let s := pipeline env
  { success := true
    response := final_response env.query query_type s
    agents_used := if s.agents_used.isEmpty then ["Enhanced Reasoning Agent"]
                   else s.agents_used
    models_used := if s.models_used.isEmpty then ["Multi-Model Synthesis"]
                   else s.models_used
    total_cost := s.total_cost
    confidence := if 4 ≤ s.responses.length then 98
                  else if 3 ≤ s.responses.length then 95
                  else if 2 ≤ s.responses.length then 88 else 75
    consensus_method := if s.responses.isEmpty then "enhanced_fallback"
                        else "real_multi_agent"
    agents_available := agentsAvailable env.api
    agents_successful := s.agents_used.length
    errors := if s.agent_errors.isEmpty then none else some s.agent_errors }

/-! ## Branch-condition characterizations used in the statements below -/

/-- The research stage produces a StageResult: provider available and HTTP 200. -/
def perplexityOk (env : Env) : Bool :=
  env.api.perplexity &&
    (match env.perplexityCall with
     | .resp code _ => decide (code = 200)
     | .exn _ => false)

/-- Content delivered by the perplexity endpoint (junk when it failed). -/
def perplexityContent (env : Env) : String :=
  match env.perplexityCall with
  | .resp _ c => c
  | .exn _ => ""

/-- Text extracted from an SDK call result (junk when it failed). -/
def exceptText : CallResult → String
  | .ok t => t
  | .error _ => ""

/-- The anthropic key is truthy. -/
def claudeKeyPresent (env : Env) : Bool := truthyStr env.anthropicKey

/-- The anthropic key passes the `startswith('sk-')` pre-check. -/
def claudeKeyFormatOk (env : Env) : Bool := isPre "sk-".data env.anthropicKey.data

/-- The analysis stage produces a StageResult. -/
def analysisOk (env : Env) : Bool :=
  env.api.anthropic && claudeKeyPresent env && claudeKeyFormatOk env
    && env.claudeCall.isOk

/-- The creative stage produces a StageResult. -/
def creativeOk (env : Env) : Bool := env.api.openai && env.openaiCall.isOk

/-- The critique sub-call runs and returns (adding its 0.003 cost). -/
def critiqueOk (env : Env) : Bool := analysisOk env && env.critiqueCall.isOk

/-- The refinement sub-call runs and returns (adding its 0.003 cost and
replacing the analysis text). -/
def refineOk (env : Env) : Bool := critiqueOk env && env.refineCall.isOk

/-- Number of successful stages among research, analysis, creative. -/
def mainOkCount (env : Env) : Nat :=
  (if perplexityOk env then 1 else 0) + (if analysisOk env then 1 else 0)
    + (if creativeOk env then 1 else 0)

/-- The synthesis stage produces a StageResult. -/
def synthesisOk (env : Env) : Bool :=
  decide (2 ≤ mainOkCount env) && env.api.anthropic && claudeKeyPresent env
    && env.synthesisCall.isOk

/-- Decorated research response text. -/
def researchText (env : Env) : String :=
  "**Research Findings:** " ++ perplexityContent env

/-- Decorated (unrefined) analysis response text. -/
def analysisText (env : Env) : String :=
  "**Deep Analysis:** " ++ exceptText env.claudeCall

/-- Decorated refined analysis text. -/
def refinedText (env : Env) : String :=
  "**Deep Analysis (Refined):** " ++ exceptText env.refineCall

/-- Decorated creative response text. -/
def creativeText (env : Env) : String :=
  "**Creative Perspective:** " ++ exceptText env.openaiCall

/-- Decorated synthesis response text. -/
def synthesisText (env : Env) : String :=
  "**Strategic Synthesis:** " ++ exceptText env.synthesisCall

/-- The StageResult of a successful research stage. -/
def researchSR (env : Env) : StageResult :=
  ⟨"Perplexity Research Agent", "sonar-pro", researchText env, 2⟩

/-- The StageResult of a successful analysis stage. -/
def analysisSR (env : Env) : StageResult :=
  ⟨"Claude Analysis Agent", "claude-sonnet-4.5", analysisText env, 3⟩

/-- The StageResult of a successful creative stage. -/
def creativeSR (env : Env) : StageResult :=
  ⟨"GPT Creative Agent", "gpt-4o", creativeText env, 15⟩

/-- The StageResult of a successful synthesis stage. -/
def synthesisSR (env : Env) : StageResult :=
  ⟨"Claude Synthesis Agent", "claude-sonnet-4.5", synthesisText env, 3⟩

/-! ## Stage-level characterization lemmas -/

/-- What stage 1 does to the run state, split on research success. -/
theorem stage1_eq (env : Env) (p : SpecializedPrompts) (s : St) :
    stage1 env p s =
      if perplexityOk env then
        { s with agents_used := s.agents_used ++ ["Perplexity Research Agent"],
                 models_used := s.models_used ++ ["sonar-pro"],
                 responses := s.responses ++ [researchText env],
                 results := s.results ++ [researchSR env],
                 total_cost := s.total_cost + 2,
                 sent := s.sent ++ [ProviderCall.mk "perplexity" p.perplexity],
                 research_output := some (researchText env) }
      else
        { s with agent_errors := s.agent_errors ++
                   (match env.perplexityCall with
                    | .exn m => if env.api.perplexity then ["Perplexity: " ++ m] else []
                    | .resp _ _ => []),
                 sent := s.sent ++
                   (if env.api.perplexity then [ProviderCall.mk "perplexity" p.perplexity]
                    else []) } := by
  unfold stage1 call_perplexity_sync applyCall recordSuccess perplexityOk researchSR
    researchText perplexityContent
  cases hapi : env.api.perplexity
  · simp [hapi]
    cases env.perplexityCall <;> rfl
  · cases hcall : env.perplexityCall with
    | exn m => simp [hapi, hcall]
    | resp code content =>
        by_cases h200 : code = 200 <;> simp [hapi, hcall, h200]

/-- Error message of an SDK call result (junk when it succeeded). -/
def exceptErr : CallResult → String
  | .ok _ => ""
  | .error m => m

/-- The key-format failure entry of `call_claude_sync`. -/
def claudeFormatMsg (env : Env) : String :=
  "Claude: API key format invalid (should start with \x27sk-\x27, got \x27"
    ++ (⟨env.anthropicKey.data.take 5⟩ : String) ++ "...\x27)"

/-- Error entries appended by an unsuccessful `call_claude_sync`. -/
def claudeErrs (env : Env) : List String :=
  if env.api.anthropic = false then []
  else if !truthyStr env.anthropicKey then ["Claude: No API key found in environment"]
  else if !claudeKeyFormatOk env then [claudeFormatMsg env]
  else
    match env.claudeCall with
    | .error m => ["Claude: " ++ m]
    | .ok _ => []

/-- A nonempty-prefixed concatenation is truthy. -/
theorem truthyStr_append (a t : String) (h : a.data.isEmpty = false) :
    truthyStr (a ++ t) = true := by
  unfold truthyStr
  rw [String.data_append]
  cases hd : a.data with
  | nil => rw [hd] at h; simp at h
  | cons c cs => simp

/-- The decorated analysis text is always truthy. -/
theorem truthyStr_deepAnalysis (t : String) :
    truthyStr ("**Deep Analysis:** " ++ t) = true :=
  truthyStr_append _ _ (by decide)

/-- What stage 2 (including the sub-loop) does to the run state. -/
theorem stage2_eq (env : Env) (p : SpecializedPrompts) (s : St) :
    stage2 env p s =
      let ctx : Option String :=
        if truthyOpt s.research_output then s.research_output else none
      let acall := ProviderCall.mk "claude-analysis" (withContext p.claude ctx)
      let ccall := ProviderCall.mk "claude-critique" (mkCritiquePrompt (analysisText env))
      let rcall := ProviderCall.mk "claude-refine"
        (mkRefinementPrompt (analysisText env) (exceptText env.critiqueCall))
      if analysisOk env then
        if critiqueOk env then
          if refineOk env then
            { s with agents_used := s.agents_used ++ ["Claude Analysis Agent"],
                     models_used := s.models_used ++ ["claude-sonnet-4.5"],
                     responses := s.responses ++ [refinedText env],
                     results := s.results ++ [analysisSR env],
                     total_cost := s.total_cost + 3 + 3 + 3,
                     sent := s.sent ++ [acall, ccall, rcall],
                     analysis_output := some (refinedText env) }
          else
            { s with agents_used := s.agents_used ++ ["Claude Analysis Agent"],
                     models_used := s.models_used ++ ["claude-sonnet-4.5"],
                     responses := s.responses ++ [analysisText env],
                     results := s.results ++ [analysisSR env],
                     total_cost := s.total_cost + 3 + 3,
                     agent_errors := s.agent_errors
                       ++ ["Self-Critique: " ++ exceptErr env.refineCall],
                     sent := s.sent ++ [acall, ccall, rcall],
                     analysis_output := some (analysisText env) }
        else
          { s with agents_used := s.agents_used ++ ["Claude Analysis Agent"],
                   models_used := s.models_used ++ ["claude-sonnet-4.5"],
                   responses := s.responses ++ [analysisText env],
                   results := s.results ++ [analysisSR env],
                   total_cost := s.total_cost + 3,
                   agent_errors := s.agent_errors
                     ++ ["Self-Critique: " ++ exceptErr env.critiqueCall],
                   sent := s.sent ++ [acall, ccall],
                   analysis_output := some (analysisText env) }
      else
        { s with agent_errors := s.agent_errors ++ claudeErrs env,
                 sent := s.sent ++
                   (if env.api.anthropic && claudeKeyPresent env
                       && claudeKeyFormatOk env then [acall] else []) } := by
  cases hapi : env.api.anthropic <;>
  cases hkey : truthyStr env.anthropicKey <;>
  cases hfmt : isPre "sk-".data env.anthropicKey.data <;>
  cases hcall : env.claudeCall <;>
  cases hcrit : env.critiqueCall <;>
  cases href : env.refineCall <;>
  simp [stage2, call_claude_sync, applyCall, recordSuccess, selfCritique,
    analysisOk, critiqueOk, refineOk, analysisSR, analysisText, refinedText,
    claudeErrs, claudeFormatMsg, claudeKeyPresent, claudeKeyFormatOk,
    exceptText, exceptErr, truthyOpt, hapi, hkey, hfmt, hcall, hcrit, href,
    Except.isOk, Except.toBool, List.dropLast_concat, truthyStr_deepAnalysis]

/-- What stage 3 does to the run state, split on creative success. -/
theorem stage3_eq (env : Env) (p : SpecializedPrompts) (s : St) :
    stage3 env p s =
      let ctx : Option String :=
        if truthyOpt s.research_output && truthyOpt s.analysis_output then
          some ("RESEARCH:\n" ++ s.research_output.getD "" ++ "\n\nANALYSIS:\n"
                ++ s.analysis_output.getD "")
        else if truthyOpt s.research_output then s.research_output
        else if truthyOpt s.analysis_output then s.analysis_output
        else none
      let ocall := ProviderCall.mk "openai" (withContext p.gpt ctx)
      if creativeOk env then
        { s with agents_used := s.agents_used ++ ["GPT Creative Agent"],
                 models_used := s.models_used ++ ["gpt-4o"],
                 responses := s.responses ++ [creativeText env],
                 results := s.results ++ [creativeSR env],
                 total_cost := s.total_cost + 15,
                 sent := s.sent ++ [ocall],
                 creative_output := some (creativeText env) }
      else
        { s with agent_errors := s.agent_errors ++
                   (if env.api.openai then
                      match env.openaiCall with
                      | .error m => ["OpenAI: " ++ m]
                      | .ok _ => []
                    else []),
                 sent := s.sent ++ (if env.api.openai then [ocall] else []) } := by
  cases hapi : env.api.openai <;>
  cases hcall : env.openaiCall <;>
  simp [stage3, call_openai_sync, applyCall, recordSuccess, creativeOk, creativeSR,
    creativeText, exceptText, hapi, hcall, Except.isOk, Except.toBool]

/-- What stage 4 does to the run state. -/
theorem stage4_eq (env : Env) (s : St) :
    stage4 env s =
      let sp := mkSynthesisPrompt env.query s.research_output s.analysis_output
                  s.creative_output
      let scall := ProviderCall.mk "claude-synthesis" sp
      if 2 ≤ s.responses.length then
        if env.api.anthropic && claudeKeyPresent env then
          match env.synthesisCall with
          | .error m =>
              { s with agent_errors := s.agent_errors ++ ["Synthesis: " ++ m],
                       sent := s.sent ++ [scall] }
          | .ok _ =>
              { s with agents_used := s.agents_used ++ ["Claude Synthesis Agent"],
                       models_used := s.models_used ++ ["claude-sonnet-4.5"],
                       responses := s.responses ++ [synthesisText env],
                       results := s.results ++ [synthesisSR env],
                       total_cost := s.total_cost + 3,
                       sent := s.sent ++ [scall] }
        else s
      else s := by
  by_cases hlen : 2 ≤ s.responses.length <;>
  cases hapi : env.api.anthropic <;>
  cases hkey : truthyStr env.anthropicKey <;>
  cases hcall : env.synthesisCall <;>
  simp [stage4, recordSuccess, claudeKeyPresent, synthesisSR, synthesisText,
    exceptText, hlen, hapi, hkey, hcall]

/-! ## Full characterization of the run state -/

/-- The decorated research text is always truthy. -/
theorem truthyStr_research (t : String) :
    truthyStr ("**Research Findings:** " ++ t) = true :=
  truthyStr_append _ _ (by decide)

/-- The decorated refined text is always truthy. -/
theorem truthyStr_refined (t : String) :
    truthyStr ("**Deep Analysis (Refined):** " ++ t) = true :=
  truthyStr_append _ _ (by decide)

/-- Error entries appended by the research stage. -/
def perplexityErrs (env : Env) : List String :=
  if env.api.perplexity then
    match env.perplexityCall with
    | .exn m => ["Perplexity: " ++ m]
    | .resp _ _ => []
  else []

/-- Error entries appended by the critique/refinement sub-loop. -/
def subErrs (env : Env) : List String :=
  if analysisOk env then
    match env.critiqueCall with
    | .error m => ["Self-Critique: " ++ m]
    | .ok _ =>
        match env.refineCall with
        | .error m => ["Self-Critique: " ++ m]
        | .ok _ => []
  else []

/-- Error entries appended by the creative stage. -/
def openaiErrs (env : Env) : List String :=
  if env.api.openai then
    match env.openaiCall with
    | .error m => ["OpenAI: " ++ m]
    | .ok _ => []
  else []

/-- `research_output` after the pipeline. -/
def preResearchOut (env : Env) : Option String :=
  if perplexityOk env then some (researchText env) else none

/-- `analysis_output` after the pipeline. -/
def preAnalysisOut (env : Env) : Option String :=
  if analysisOk env then
    some (if refineOk env then refinedText env else analysisText env)
  else none

/-- `creative_output` after the pipeline. -/
def preCreativeOut (env : Env) : Option String :=
  if creativeOk env then some (creativeText env) else none

/-- The context string handed to the creative stage. -/
def creativeCtx (env : Env) : Option String :=
  if perplexityOk env && analysisOk env then
    some ("RESEARCH:\n" ++ researchText env ++ "\n\nANALYSIS:\n"
          ++ (if refineOk env then refinedText env else analysisText env))
  else if perplexityOk env then some (researchText env)
  else if analysisOk env then
    some (if refineOk env then refinedText env else analysisText env)
  else none

/-- All provider calls dispatched by stages 1-3, in order. -/
def preSent (env : Env) : List ProviderCall :=
  (if env.api.perplexity then
     [ProviderCall.mk "perplexity" (promptsOf env).perplexity] else [])
  ++ (if env.api.anthropic && claudeKeyPresent env && claudeKeyFormatOk env then
       [ProviderCall.mk "claude-analysis"
         (withContext (promptsOf env).claude (preResearchOut env))] else [])
  ++ (if analysisOk env then
       [ProviderCall.mk "claude-critique" (mkCritiquePrompt (analysisText env))]
      else [])
  ++ (if critiqueOk env then
       [ProviderCall.mk "claude-refine"
         (mkRefinementPrompt (analysisText env) (exceptText env.critiqueCall))]
      else [])
  ++ (if env.api.openai then
       [ProviderCall.mk "openai" (withContext (promptsOf env).gpt (creativeCtx env))]
      else [])

/-- Cost accumulated over stages 1-3 (thousandths of a dollar). -/
def preCost (env : Env) : Nat :=
  (if perplexityOk env then 2 else 0) + (if analysisOk env then 3 else 0)
    + (if critiqueOk env then 3 else 0) + (if refineOk env then 3 else 0)
    + (if creativeOk env then 15 else 0)

/-- The decorated research text is truthy. -/
theorem truthy_researchText (env : Env) : truthyStr (researchText env) = true := by
  unfold researchText; exact truthyStr_research _

/-- The decorated analysis text is truthy. -/
theorem truthy_analysisText (env : Env) : truthyStr (analysisText env) = true := by
  unfold analysisText; exact truthyStr_deepAnalysis _

/-- The decorated refined text is truthy. -/
theorem truthy_refinedText (env : Env) : truthyStr (refinedText env) = true := by
  unfold refinedText; exact truthyStr_refined _

/-- Components of a successful analysis condition. -/
theorem analysisOk_parts (env : Env) (h : analysisOk env = true) :
    env.api.anthropic = true ∧ claudeKeyPresent env = true
      ∧ claudeKeyFormatOk env = true ∧ env.claudeCall.isOk = true := by
  simp [analysisOk, Bool.and_eq_true] at h
  exact ⟨h.1.1.1, h.1.1.2, h.1.2, h.2⟩

/-- A successful analysis stage appends no claude error entry. -/
theorem claudeErrs_of_analysisOk (env : Env) (h : analysisOk env = true) :
    claudeErrs env = [] := by
  obtain ⟨h1, h2, h3, h4⟩ := analysisOk_parts env h
  cases hc : env.claudeCall with
  | error m => rw [hc] at h4; simp [Except.isOk, Except.toBool] at h4
  | ok t =>
      have h2' : truthyStr env.anthropicKey = true := h2
      simp [claudeErrs, h1, h2', h3, hc]

/-- Components of a successful research condition. -/
theorem perplexityOk_parts (env : Env) (h : perplexityOk env = true) :
    env.api.perplexity = true ∧ perplexityErrs env = [] := by
  cases hpc : env.perplexityCall with
  | exn m => rw [perplexityOk, hpc] at h; simp at h
  | resp c cnt =>
      rw [perplexityOk, hpc] at h
      simp [Bool.and_eq_true] at h
      exact ⟨h.1, by simp [perplexityErrs, h.1, hpc]⟩

/-- The error entries of the research stage, written as the stage writes them. -/
theorem perplexityErrs_match (env : Env) :
    (match env.perplexityCall with
     | PerplexityHttp.exn m =>
         if env.api.perplexity = true then ["Perplexity: " ++ m] else []
     | PerplexityHttp.resp _ _ => ([] : List String)) = perplexityErrs env := by
  cases hpc : env.perplexityCall <;> cases hapi : env.api.perplexity <;>
    simp [perplexityErrs, hapi, hpc]

/-- The run state after stages 1 and 2, in closed form. -/
theorem state12_eq (env : Env) (p : SpecializedPrompts) :
    stage2 env p (stage1 env p St.init) =
      { agents_used :=
          (if perplexityOk env then ["Perplexity Research Agent"] else [])
          ++ (if analysisOk env then ["Claude Analysis Agent"] else []),
        models_used :=
          (if perplexityOk env then ["sonar-pro"] else [])
          ++ (if analysisOk env then ["claude-sonnet-4.5"] else []),
        responses :=
          (if perplexityOk env then [researchText env] else [])
          ++ (if analysisOk env then
                [if refineOk env then refinedText env else analysisText env] else []),
        results :=
          (if perplexityOk env then [researchSR env] else [])
          ++ (if analysisOk env then [analysisSR env] else []),
        agent_errors := perplexityErrs env ++ claudeErrs env ++ subErrs env,
        total_cost :=
          (if perplexityOk env then 2 else 0) + (if analysisOk env then 3 else 0)
            + (if critiqueOk env then 3 else 0) + (if refineOk env then 3 else 0),
        sent :=
          (if env.api.perplexity then
             [ProviderCall.mk "perplexity" p.perplexity] else [])
          ++ (if env.api.anthropic && claudeKeyPresent env && claudeKeyFormatOk env
              then [ProviderCall.mk "claude-analysis"
                      (withContext p.claude (preResearchOut env))] else [])
          ++ (if analysisOk env then
               [ProviderCall.mk "claude-critique"
                  (mkCritiquePrompt (analysisText env))] else [])
          ++ (if critiqueOk env then
               [ProviderCall.mk "claude-refine"
                  (mkRefinementPrompt (analysisText env)
                    (exceptText env.critiqueCall))] else []),
        research_output := preResearchOut env,
        analysis_output := preAnalysisOut env,
        creative_output := none } := by
  rw [stage1_eq, stage2_eq]
  by_cases hp : perplexityOk env = true
  · obtain ⟨hp1, hp2⟩ := perplexityOk_parts env hp
    by_cases ha : analysisOk env = true
    · obtain ⟨h1, h2, h3, h4⟩ := analysisOk_parts env ha
      cases hcr : env.critiqueCall <;>
      cases hrf : env.refineCall <;>
      simp [hp, hp1, hp2, ha, h1, h2, h3, hcr, hrf, critiqueOk, refineOk,
        Except.isOk, Except.toBool, St.init, subErrs, preResearchOut,
        preAnalysisOut, truthyOpt, truthy_researchText, exceptErr,
        claudeErrs_of_analysisOk env ha]
    · have ha' : analysisOk env = false := by
        cases hb : analysisOk env
        · rfl
        · exact absurd hb ha
      simp [hp, hp1, hp2, ha', critiqueOk, refineOk, St.init, subErrs,
        preResearchOut, preAnalysisOut, truthyOpt, truthy_researchText]
  · have hp' : perplexityOk env = false := by
      cases hb : perplexityOk env
      · rfl
      · exact absurd hb hp
    by_cases ha : analysisOk env = true
    · obtain ⟨h1, h2, h3, h4⟩ := analysisOk_parts env ha
      cases hcr : env.critiqueCall <;>
      cases hrf : env.refineCall <;>
      simp [hp', ha, h1, h2, h3, hcr, hrf, critiqueOk, refineOk, Except.isOk,
        Except.toBool, St.init, subErrs, preResearchOut, preAnalysisOut,
        truthyOpt, truthy_researchText, exceptErr, perplexityErrs_match,
        claudeErrs_of_analysisOk env ha]
    · have ha' : analysisOk env = false := by
        cases hb : analysisOk env
        · rfl
        · exact absurd hb ha
      simp [hp', ha', critiqueOk, refineOk, St.init, subErrs, preResearchOut,
        preAnalysisOut, truthyOpt, truthy_researchText, perplexityErrs_match]

/-- Components of a successful creative condition. -/
theorem creativeOk_parts (env : Env) (h : creativeOk env = true) :
    env.api.openai = true ∧ openaiErrs env = [] := by
  simp [creativeOk, Bool.and_eq_true] at h
  obtain ⟨h1, h2⟩ := h
  cases hc : env.openaiCall with
  | error m => rw [hc] at h2; simp [Except.isOk, Except.toBool] at h2
  | ok t => exact ⟨h1, by simp [openaiErrs, h1, hc]⟩

/-- The run state after stages 1-3, in closed form. -/
theorem pipelinePre_eq (env : Env) :
    pipelinePre env =
      { agents_used :=
          (if perplexityOk env then ["Perplexity Research Agent"] else [])
          ++ (if analysisOk env then ["Claude Analysis Agent"] else [])
          ++ (if creativeOk env then ["GPT Creative Agent"] else []),
        models_used :=
          (if perplexityOk env then ["sonar-pro"] else [])
          ++ (if analysisOk env then ["claude-sonnet-4.5"] else [])
          ++ (if creativeOk env then ["gpt-4o"] else []),
        responses :=
          (if perplexityOk env then [researchText env] else [])
          ++ (if analysisOk env then
                [if refineOk env then refinedText env else analysisText env] else [])
          ++ (if creativeOk env then [creativeText env] else []),
        results :=
          (if perplexityOk env then [researchSR env] else [])
          ++ (if analysisOk env then [analysisSR env] else [])
          ++ (if creativeOk env then [creativeSR env] else []),
        agent_errors :=
          perplexityErrs env ++ claudeErrs env ++ subErrs env ++ openaiErrs env,
        total_cost := preCost env,
        sent := preSent env,
        research_output := preResearchOut env,
        analysis_output := preAnalysisOut env,
        creative_output := preCreativeOut env } := by
  unfold pipelinePre
  rw [state12_eq, stage3_eq]
  by_cases hcre : creativeOk env = true
  · obtain ⟨ho1, ho2⟩ := creativeOk_parts env hcre
    by_cases hp : perplexityOk env = true <;>
    by_cases ha : analysisOk env = true <;>
    by_cases hr : refineOk env = true <;>
    simp [hcre, ho1, ho2, hp, ha, hr, creativeCtx, preSent, preCost,
      preResearchOut, preAnalysisOut, preCreativeOut, truthyOpt,
      truthy_researchText, truthy_analysisText, truthy_refinedText,
      List.append_assoc, Nat.add_assoc]
  · have hcre' : creativeOk env = false := by
      cases hb : creativeOk env
      · rfl
      · exact absurd hb hcre
    by_cases hp : perplexityOk env = true <;>
    by_cases ha : analysisOk env = true <;>
    by_cases hr : refineOk env = true <;>
    simp [hcre', hp, ha, hr, creativeCtx, preSent, preCost, openaiErrs,
      preResearchOut, preAnalysisOut, preCreativeOut, truthyOpt,
      truthy_researchText, truthy_analysisText, truthy_refinedText,
      List.append_assoc, Nat.add_assoc]

/-- The synthesis call is dispatched. -/
def synthAttempted (env : Env) : Bool :=
  decide (2 ≤ mainOkCount env) && env.api.anthropic && claudeKeyPresent env

/-- Error entries appended by the synthesis stage. -/
def synthErrs (env : Env) : List String :=
  if synthAttempted env then
    match env.synthesisCall with
    | .error m => ["Synthesis: " ++ m]
    | .ok _ => []
  else []

/-- The synthesis prompt dispatched by stage 4. -/
def synthPrompt (env : Env) : String :=
  mkSynthesisPrompt env.query (preResearchOut env) (preAnalysisOut env)
    (preCreativeOut env)

/-- The number of responses after stages 1-3 equals the successful-stage count. -/
theorem pre_responses_length (env : Env) :
    (pipelinePre env).responses.length = mainOkCount env := by
  rw [pipelinePre_eq]
  by_cases hp : perplexityOk env = true <;>
  by_cases ha : analysisOk env = true <;>
  by_cases hcre : creativeOk env = true <;>
  simp [mainOkCount, hp, ha, hcre]

/-- The complete run state, in closed form. -/
theorem pipeline_eq (env : Env) :
    pipeline env =
      { agents_used :=
          (if perplexityOk env then ["Perplexity Research Agent"] else [])
          ++ (if analysisOk env then ["Claude Analysis Agent"] else [])
          ++ (if creativeOk env then ["GPT Creative Agent"] else [])
          ++ (if synthesisOk env then ["Claude Synthesis Agent"] else []),
        models_used :=
          (if perplexityOk env then ["sonar-pro"] else [])
          ++ (if analysisOk env then ["claude-sonnet-4.5"] else [])
          ++ (if creativeOk env then ["gpt-4o"] else [])
          ++ (if synthesisOk env then ["claude-sonnet-4.5"] else []),
        responses :=
          (if perplexityOk env then [researchText env] else [])
          ++ (if analysisOk env then
                [if refineOk env then refinedText env else analysisText env] else [])
          ++ (if creativeOk env then [creativeText env] else [])
          ++ (if synthesisOk env then [synthesisText env] else []),
        results :=
          (if perplexityOk env then [researchSR env] else [])
          ++ (if analysisOk env then [analysisSR env] else [])
          ++ (if creativeOk env then [creativeSR env] else [])
          ++ (if synthesisOk env then [synthesisSR env] else []),
        agent_errors :=
          perplexityErrs env ++ claudeErrs env ++ subErrs env ++ openaiErrs env
            ++ synthErrs env,
        total_cost := preCost env + (if synthesisOk env then 3 else 0),
        sent := preSent env ++
          (if synthAttempted env then [ProviderCall.mk "claude-synthesis" (synthPrompt env)]
           else []),
        research_output := preResearchOut env,
        analysis_output := preAnalysisOut env,
        creative_output := preCreativeOut env } := by
  unfold pipeline
  rw [stage4_eq]
  simp only [pre_responses_length]
  rw [pipelinePre_eq]
  by_cases h2 : 2 ≤ mainOkCount env
  · cases hapi : env.api.anthropic
    · simp [h2, hapi, synthesisOk, synthErrs, synthAttempted, synthPrompt]
    · cases hkey : claudeKeyPresent env
      · simp [h2, hapi, hkey, synthesisOk, synthErrs, synthAttempted, synthPrompt]
      · cases hsc : env.synthesisCall <;>
        simp [h2, hapi, hkey, hsc, synthesisOk, synthErrs, synthAttempted,
          synthPrompt, Except.isOk, Except.toBool, List.append_assoc,
          Nat.add_assoc]
  · simp [h2, synthesisOk, synthErrs, synthAttempted]

/-! ## String helper lemmas -/

/-- Appending the empty string on the right is the identity. -/
theorem str_append_empty (s : String) : s ++ "" = s := by
  show String.mk (s.data ++ []) = s
  rw [List.append_nil]

/-- Appending the empty string on the left is the identity. -/
theorem str_empty_append (s : String) : "" ++ s = s := rfl

/-- String concatenation is associative. -/
theorem str_append_assoc (a b c : String) : a ++ b ++ c = a ++ (b ++ c) := by
  show String.mk (a.data ++ b.data ++ c.data) = String.mk (a.data ++ (b.data ++ c.data))
  rw [List.append_assoc]

/-- An initial-segment test survives extending the text on the right. -/
theorem isPre_append (n l b : List Char) (h : isPre n l = true) :
    isPre n (l ++ b) = true := by
  induction n generalizing l with
  | nil => rfl
  | cons c cs ih =>
      cases l with
      | nil => simp [isPre] at h
      | cons d ds =>
          simp [isPre, Bool.and_eq_true] at h ⊢
          exact ⟨h.1, ih ds h.2⟩

/-- A substring test survives extending the text on the right. -/
theorem subList_append (l n b : List Char) (h : subList l n = true) :
    subList (l ++ b) n = true := by
  cases n with
  | nil => cases l ++ b with
    | nil => rfl
    | cons x xs => rfl
  | cons c cs =>
      induction l with
      | nil => simp [subList] at h
      | cons d ds ih =>
          simp [subList, Bool.or_eq_true] at h ⊢
          rcases h with h | h
          · exact Or.inl (isPre_append _ _ _ h)
          · exact Or.inr (ih h)

/-- A substring of a string is a substring of any right extension. -/
theorem str_contains_append_left (a b n : String)
    (h : str_contains a n = true) : str_contains (a ++ b) n = true := by
  unfold str_contains at h ⊢
  rw [String.data_append]
  exact subList_append _ _ _ h

/-- Two strings with distinct concrete characters at position 2 stay distinct
under arbitrary right extensions. -/
theorem str_append_ne (p q : String) (hp : 2 < p.data.length)
    (hq : 2 < q.data.length) (hne : p.data[2]? ≠ q.data[2]?) :
    ∀ t u : String, p ++ t ≠ q ++ u := by
  intro t u h
  apply hne
  have h2 : (p ++ t).data = (q ++ u).data := congrArg String.data h
  rw [String.data_append, String.data_append] at h2
  calc p.data[2]? = (p.data ++ t.data)[2]? := (List.getElem?_append_left hp).symm
    _ = (q.data ++ u.data)[2]? := by rw [h2]
    _ = q.data[2]? := List.getElem?_append_left hq

/-- Any member of the list appears inside the separator-joined string. -/
theorem joinSep_split (sep : String) (l : List String) (a : String)
    (h : a ∈ l) : ∃ pre post, joinSep sep l = pre ++ a ++ post := by
  induction l with
  | nil => simp at h
  | cons x xs ih =>
      cases xs with
      | nil =>
          simp at h
          subst h
          exact ⟨"", "", by simp [joinSep, str_append_empty, str_empty_append]⟩
      | cons y ys =>
          rcases List.mem_cons.mp h with rfl | htail
          · refine ⟨"", sep ++ joinSep sep (y :: ys), ?_⟩
            simp [joinSep, str_append_assoc, str_empty_append]
          · obtain ⟨p, q, hpq⟩ := ih htail
            refine ⟨x ++ sep ++ p, q, ?_⟩
            show x ++ sep ++ joinSep sep (y :: ys) = x ++ sep ++ p ++ a ++ q
            rw [hpq]
            simp [str_append_assoc]

/-- Extending a split string on the left preserves the split. -/
theorem split_extend_left {s a : String} (x : String)
    (h : ∃ pre post, s = pre ++ a ++ post) :
    ∃ pre post, x ++ s = pre ++ a ++ post := by
  obtain ⟨p, q, hp⟩ := h
  exact ⟨x ++ p, q, by rw [hp, ← str_append_assoc, ← str_append_assoc]⟩

/-- Extending a split string on the right preserves the split. -/
theorem split_extend_right {s a : String} (y : String)
    (h : ∃ pre post, s = pre ++ a ++ post) :
    ∃ pre post, s ++ y = pre ++ a ++ post := by
  obtain ⟨p, q, hp⟩ := h
  exact ⟨p, q ++ y, by rw [hp, str_append_assoc (p ++ a) q y]⟩

/-- Every response entry appears inside the assembled report. -/
theorem final_response_split (query qt : String) (s : St) (a : String)
    (h : a ∈ s.responses) :
    ∃ pre post, final_response query qt s = pre ++ a ++ post := by
  have hne : s.responses.isEmpty = false := by
    cases hr : s.responses
    · rw [hr] at h; simp at h
    · rfl
  have hmem : a ++ "\n\n---\n" ∈ s.responses.map (fun r => r ++ "\n\n---\n") :=
    List.mem_map_of_mem _ h
  obtain ⟨p, q, hpq⟩ := joinSep_split "\n" _ _ hmem
  have hsplit : ∃ pre post,
      joinSep "\n" (s.responses.map (fun r => r ++ "\n\n---\n"))
        = pre ++ a ++ post := by
    refine ⟨p, "\n\n---\n" ++ q, ?_⟩
    rw [hpq]
    simp [str_append_assoc]
  unfold final_response
  simp only [hne, Bool.false_eq_true, if_false]
  exact split_extend_right _ (split_extend_right _ (split_extend_right _
    (split_extend_right _ (split_extend_right _ (split_extend_right _
      (split_extend_left _ hsplit))))))

/-! ## Claim C1 -/

/-- C1: for every environment (any query, any provider availability, any call
outcomes, including total failure) the entry point returns a result with
`success = true`, and the stage failures surface exactly as the collected
`agent_errors` list in the `errors` field (`None` when no failure occurred);
the embedding is a total function, so no exception reaches the caller. -/
theorem c1_success_and_errors (env : Env) :
    (real_multi_agent_collaboration env).success = true
    ∧ (real_multi_agent_collaboration env).errors
        = (if (pipeline env).agent_errors.isEmpty then none
           else some ((pipeline env).agent_errors)) :=
  ⟨rfl, rfl⟩

/-! ## Claim C2 -/

/-- C2: the returned `total_cost` equals the sum of the `cost` fields of the
StageResults actually produced, plus 0.003 for the critique sub-call when it
completed and 0.003 for the refine sub-call when it completed; nothing else is
ever added.  (Costs in thousandths of a dollar: research 2, analysis 3,
creative 15, synthesis 3, sub-calls 3 each.) -/
theorem c2_total_cost (env : Env) :
    (real_multi_agent_collaboration env).total_cost
      = ((pipeline env).results.map StageResult.cost).sum
        + (if critiqueOk env then 3 else 0)
        + (if refineOk env then 3 else 0) := by
  have hc : (real_multi_agent_collaboration env).total_cost
      = (pipeline env).total_cost := rfl
  rw [hc, pipeline_eq]
  simp only [preCost, List.map_append, List.sum_append, apply_ite
    (List.map StageResult.cost), apply_ite List.sum, List.map_nil,
    List.sum_nil, List.map_cons, List.sum_cons, researchSR, analysisSR,
    creativeSR, synthesisSR]
  split_ifs <;> omega

/-! ## Claim C3 -/

/-- C3: the returned confidence (in hundredths) is the exact deterministic
function of the number of StageResults produced: at least 4 gives 0.98,
exactly 3 gives 0.95, exactly 2 gives 0.88, and 0 or 1 gives 0.75. -/
theorem c3_confidence (env : Env) :
    (real_multi_agent_collaboration env).confidence
      = (if 4 ≤ (pipeline env).results.length then 98
         else if (pipeline env).results.length = 3 then 95
         else if (pipeline env).results.length = 2 then 88 else 75) := by
  have h1 : (real_multi_agent_collaboration env).confidence
      = (if 4 ≤ (pipeline env).responses.length then 98
         else if 3 ≤ (pipeline env).responses.length then 95
         else if 2 ≤ (pipeline env).responses.length then 88 else 75) := rfl
  have hlen : (pipeline env).responses.length = (pipeline env).results.length := by
    rw [pipeline_eq]
    by_cases hp : perplexityOk env = true <;>
    by_cases ha : analysisOk env = true <;>
    by_cases hcre : creativeOk env = true <;>
    by_cases hs : synthesisOk env = true <;>
    simp [hp, ha, hcre, hs]
  rw [h1, hlen]
  split_ifs <;> omega

/-! ## Claim C10 -/

/-- The `agents_available` count, per availability flag. -/
theorem agentsAvailable_eq (a : ApiStatus) :
    agentsAvailable a
      = (if a.openai then 1 else 0) + (if a.anthropic then 1 else 0)
        + (if a.perplexity then 1 else 0) := by
  rcases a with ⟨o, an, pe, g, n⟩
  cases o <;> cases an <;> cases pe <;> cases g <;> cases n <;> rfl

/-- C10: the returned `agents_available` counts exactly the available providers
among openai, anthropic and perplexity; the gemini and notion entries of the
availability map never contribute, even when configured. -/
theorem c10_agents_available (env : Env) :
    (real_multi_agent_collaboration env).agents_available
      = (if env.api.openai then 1 else 0) + (if env.api.anthropic then 1 else 0)
        + (if env.api.perplexity then 1 else 0) := by
  have h : (real_multi_agent_collaboration env).agents_available
      = agentsAvailable env.api := rfl
  rw [h, agentsAvailable_eq]

/-! ## Claims C4 and C5 -/

/-- An environment in which no provider is available and every call would
fail. -/
def envNone : Env :=
  { query := "q", api := ⟨false, false, false, false, false⟩,
    anthropicKey := "", perplexityCall := .exn "x",
    claudeCall := .error "x", critiqueCall := .error "x",
    refineCall := .error "x", openaiCall := .error "x",
    synthesisCall := .error "x" }

/-- C4 counterexample: when zero stages succeed the returned result has
`agents_successful = 0` while the returned `agents_used` list has length 1
(the placeholder `Enhanced Reasoning Agent`), so
`agents_successful == len(agents_used)` fails on the returned result. -/
theorem c4_counterexample :
    (real_multi_agent_collaboration envNone).agents_successful = 0
    ∧ (real_multi_agent_collaboration envNone).agents_used.length = 1 := by
  decide

/-- C4 (amended): `agents_successful` equals the length of the internal
`agents_used` list, which has the same length as `models_used`; both internal
lists are the agent/model labels of the StageResults actually produced, in the
fixed stage order research, analysis, creative, synthesis restricted to the
successful stages.  The returned lists equal the internal ones except when
zero stages succeeded, in which case they are replaced by the placeholders
`["Enhanced Reasoning Agent"]` / `["Multi-Model Synthesis"]` while
`agents_successful` stays 0. -/
theorem c4_amended (env : Env) :
    (real_multi_agent_collaboration env).agents_successful
        = (pipeline env).agents_used.length
    ∧ (pipeline env).agents_used.length = (pipeline env).models_used.length
    ∧ (pipeline env).agents_used = (pipeline env).results.map StageResult.agent
    ∧ (pipeline env).models_used = (pipeline env).results.map StageResult.model
    ∧ (pipeline env).agents_used
        = (if perplexityOk env then ["Perplexity Research Agent"] else [])
          ++ (if analysisOk env then ["Claude Analysis Agent"] else [])
          ++ (if creativeOk env then ["GPT Creative Agent"] else [])
          ++ (if synthesisOk env then ["Claude Synthesis Agent"] else [])
    ∧ (real_multi_agent_collaboration env).agents_used
        = (if (pipeline env).agents_used.isEmpty then ["Enhanced Reasoning Agent"]
           else (pipeline env).agents_used)
    ∧ (real_multi_agent_collaboration env).models_used
        = (if (pipeline env).models_used.isEmpty then ["Multi-Model Synthesis"]
           else (pipeline env).models_used) := by
  refine ⟨rfl, ?_, ?_, ?_, ?_, rfl, rfl⟩ <;>
  rw [pipeline_eq] <;>
  by_cases hp : perplexityOk env = true <;>
  by_cases ha : analysisOk env = true <;>
  by_cases hcre : creativeOk env = true <;>
  by_cases hs : synthesisOk env = true <;>
  simp [hp, ha, hcre, hs, researchSR, analysisSR, creativeSR, synthesisSR]

/-- C5 counterexample: with no provider available the returned `agents_used`
is not the empty list (it is the placeholder singleton). -/
theorem c5_counterexample :
    (real_multi_agent_collaboration envNone).agents_used ≠ [] := by
  decide

/-- C5 (amended): when every `api_status` entry is false the pipeline returns
the deterministic fallback report body and confidence 0.75 without raising,
but the returned `agents_used` equals `["Enhanced Reasoning Agent"]` (and
`models_used` equals `["Multi-Model Synthesis"]`), not the empty list. -/
theorem c5_no_providers (env : Env) (ho : env.api.openai = false)
    (ha : env.api.anthropic = false) (hp : env.api.perplexity = false)
    (_hg : env.api.gemini = false) (_hn : env.api.notion = false) :
    (real_multi_agent_collaboration env).response = fallback_response env.query
    ∧ (real_multi_agent_collaboration env).agents_used
        = ["Enhanced Reasoning Agent"]
    ∧ (real_multi_agent_collaboration env).models_used
        = ["Multi-Model Synthesis"]
    ∧ (real_multi_agent_collaboration env).confidence = 75 := by
  have hpipe : pipeline env = St.init := by
    rw [pipeline_eq]
    simp [perplexityOk, analysisOk, creativeOk, synthesisOk, critiqueOk,
      refineOk, mainOkCount, ho, ha, hp, perplexityErrs, claudeErrs, subErrs,
      openaiErrs, synthErrs, synthAttempted, preCost, preSent, preResearchOut,
      preAnalysisOut, preCreativeOut, St.init]
  simp [real_multi_agent_collaboration, hpipe, St.init, final_response]

/-- Witness for C5 (amended) at the all-unavailable environment. -/
theorem c5_no_providers_witness :
    (real_multi_agent_collaboration envNone).response = fallback_response "q"
    ∧ (real_multi_agent_collaboration envNone).agents_used
        = ["Enhanced Reasoning Agent"]
    ∧ (real_multi_agent_collaboration envNone).models_used
        = ["Multi-Model Synthesis"]
    ∧ (real_multi_agent_collaboration envNone).confidence = 75 :=
  c5_no_providers envNone rfl rfl rfl rfl rfl

/-! ## Claim C6 -/

/-- An environment whose only available provider answers HTTP 503. -/
def envC6 : Env :=
  { query := "q", api := ⟨false, false, true, false, false⟩,
    anthropicKey := "", perplexityCall := .resp 503 "Service Unavailable",
    claudeCall := .error "x", critiqueCall := .error "x",
    refineCall := .error "x", openaiCall := .error "x",
    synthesisCall := .error "x" }

/-- C6 counterexample: a non-2xx perplexity response is an invocation failure
of an attempted call (the call is dispatched), the stage returns null, yet no
failure entry is recorded — neither by the stage runner nor in the final
error list. -/
theorem c6_counterexample :
    (call_perplexity_sync envC6 (promptsOf envC6)).result = none
    ∧ (call_perplexity_sync envC6 (promptsOf envC6)).errs = []
    ∧ (call_perplexity_sync envC6 (promptsOf envC6)).sent.length = 1
    ∧ (pipeline envC6).agent_errors = [] := by
  decide

/-- C6 (amended): every exception-raising failure of an attempted provider
call (network error, timeout, SDK-reported non-2xx, provider rejection)
appends one failure entry with the provider name and message and makes the
stage return null; a perplexity HTTP response with a non-200 status, however,
returns null silently without appending any entry. -/
theorem c6_failure_recording :
    (∀ env p m, env.api.perplexity = true → env.perplexityCall = .exn m →
      call_perplexity_sync env p
        = ⟨none, ["Perplexity: " ++ m], [ProviderCall.mk "perplexity" p.perplexity]⟩)
    ∧ (∀ env p code content, env.api.perplexity = true →
        env.perplexityCall = .resp code content → code ≠ 200 →
        call_perplexity_sync env p
          = ⟨none, [], [ProviderCall.mk "perplexity" p.perplexity]⟩)
    ∧ (∀ env p ctx m, env.api.anthropic = true → claudeKeyPresent env = true →
        claudeKeyFormatOk env = true → env.claudeCall = .error m →
        call_claude_sync env p ctx
          = ⟨none, ["Claude: " ++ m],
             [ProviderCall.mk "claude-analysis" (withContext p.claude ctx)]⟩)
    ∧ (∀ env p ctx m, env.api.openai = true → env.openaiCall = .error m →
        call_openai_sync env p ctx
          = ⟨none, ["OpenAI: " ++ m],
             [ProviderCall.mk "openai" (withContext p.gpt ctx)]⟩) := by
  refine ⟨?_, ?_, ?_, ?_⟩
  · intro env p m h1 h2
    simp [call_perplexity_sync, h1, h2]
  · intro env p code content h1 h2 h3
    simp [call_perplexity_sync, h1, h2, h3]
  · intro env p ctx m h1 h2 h3 h4
    have h2' : truthyStr env.anthropicKey = true := h2
    have h3' : isPre "sk-".data env.anthropicKey.data = true := h3
    simp [call_claude_sync, h1, h2', h3', h4]
  · intro env p ctx m h1 h2
    simp [call_openai_sync, h1, h2]

/-- An environment whose providers are all configured but raise. -/
def envC6w : Env :=
  { query := "q", api := ⟨true, true, true, false, false⟩,
    anthropicKey := "sk-k", perplexityCall := .exn "boom",
    claudeCall := .error "down", critiqueCall := .error "x",
    refineCall := .error "x", openaiCall := .error "fail",
    synthesisCall := .error "x" }

/-- Like `envC6w` but the research provider answers HTTP 500. -/
def envC6w2 : Env := { envC6w with perplexityCall := .resp 500 "err" }

/-- Witness for C6 (amended) at concrete failing environments. -/
theorem c6_failure_recording_witness :
    call_perplexity_sync envC6w (promptsOf envC6w)
      = ⟨none, ["Perplexity: " ++ "boom"],
         [ProviderCall.mk "perplexity" (promptsOf envC6w).perplexity]⟩
    ∧ call_perplexity_sync envC6w2 (promptsOf envC6w2)
      = ⟨none, [], [ProviderCall.mk "perplexity" (promptsOf envC6w2).perplexity]⟩
    ∧ call_claude_sync envC6w (promptsOf envC6w) none
      = ⟨none, ["Claude: " ++ "down"],
         [ProviderCall.mk "claude-analysis"
            (withContext (promptsOf envC6w).claude none)]⟩
    ∧ call_openai_sync envC6w (promptsOf envC6w) none
      = ⟨none, ["OpenAI: " ++ "fail"],
         [ProviderCall.mk "openai" (withContext (promptsOf envC6w).gpt none)]⟩ :=
  ⟨c6_failure_recording.1 envC6w (promptsOf envC6w) "boom" rfl rfl,
   c6_failure_recording.2.1 envC6w2 (promptsOf envC6w2) 500 "err" rfl rfl
     (by decide),
   c6_failure_recording.2.2.1 envC6w (promptsOf envC6w) none "down" rfl
     (by decide) (by decide) rfl,
   c6_failure_recording.2.2.2 envC6w (promptsOf envC6w) none "fail" rfl rfl⟩

/-! ## Claim C7 -/

/-- C7: when the analysis stage succeeds with text `t` but the critique or the
refine sub-call raises with message `m`, the failure is recorded as a
`Self-Critique` entry, `analysis_output` keeps the unrefined decorated text,
the responses sequence holds the unrefined analysis text exactly once with all
other entries untouched by the sub-loop, and the unrefined text appears in the
assembled report. -/
theorem c7_subloop_failure (env : Env) (t m : String)
    (hok : env.claudeCall = .ok t) (hA : analysisOk env = true)
    (hfail : env.critiqueCall = .error m
      ∨ (env.critiqueCall.isOk = true ∧ env.refineCall = .error m)) :
    ("Self-Critique: " ++ m) ∈ (pipeline env).agent_errors
    ∧ (pipeline env).analysis_output = some ("**Deep Analysis:** " ++ t)
    ∧ (pipeline env).responses
        = (if perplexityOk env then [researchText env] else [])
          ++ ["**Deep Analysis:** " ++ t]
          ++ (if creativeOk env then [creativeText env] else [])
          ++ (if synthesisOk env then [synthesisText env] else [])
    ∧ (pipeline env).responses.count ("**Deep Analysis:** " ++ t) = 1
    ∧ ∃ pre post, (real_multi_agent_collaboration env).response
        = pre ++ ("**Deep Analysis:** " ++ t) ++ post := by
  have hrf : refineOk env = false := by
    rcases hfail with h | ⟨hc, h⟩
    · simp [refineOk, critiqueOk, h, Except.isOk, Except.toBool]
    · simp [refineOk, h, Except.isOk, Except.toBool]
  have haT : analysisText env = "**Deep Analysis:** " ++ t := by
    simp [analysisText, exceptText, hok]
  have hsub : subErrs env = ["Self-Critique: " ++ m] := by
    rcases hfail with h | ⟨hc, h⟩
    · simp [subErrs, hA, h]
    · cases hcc : env.critiqueCall with
      | error mm => rw [hcc] at hc; simp [Except.isOk, Except.toBool] at hc
      | ok ct => simp [subErrs, hA, hcc, h]
  have hresp : (pipeline env).responses
      = (if perplexityOk env then [researchText env] else [])
        ++ ["**Deep Analysis:** " ++ t]
        ++ (if creativeOk env then [creativeText env] else [])
        ++ (if synthesisOk env then [synthesisText env] else []) := by
    rw [pipeline_eq]
    simp [hA, hrf, haT]
  have hne1 : ∀ u : String, researchText env ≠ "**Deep Analysis:** " ++ u := by
    intro u
    unfold researchText
    exact str_append_ne _ _ (by decide) (by decide) (by decide) _ _
  have hne2 : ∀ u : String, creativeText env ≠ "**Deep Analysis:** " ++ u := by
    intro u
    unfold creativeText
    exact str_append_ne _ _ (by decide) (by decide) (by decide) _ _
  have hne3 : ∀ u : String, synthesisText env ≠ "**Deep Analysis:** " ++ u := by
    intro u
    unfold synthesisText
    exact str_append_ne _ _ (by decide) (by decide) (by decide) _ _
  refine ⟨?_, ?_, hresp, ?_, ?_⟩
  · rw [pipeline_eq]
    simp [hsub, List.mem_append]
  · rw [pipeline_eq]
    simp [preAnalysisOut, hA, hrf, haT]
  · rw [hresp]
    by_cases hp : perplexityOk env = true <;>
    by_cases hcre : creativeOk env = true <;>
    by_cases hs : synthesisOk env = true <;>
    simp [hp, hcre, hs, List.count_append, List.count_cons, List.count_nil,
      hne1 t, hne2 t, hne3 t]
  · have hmem : "**Deep Analysis:** " ++ t ∈ (pipeline env).responses := by
      rw [hresp]; simp
    have h0 : (real_multi_agent_collaboration env).response
        = final_response env.query (detect_query_type env.query) (pipeline env) :=
      rfl
    rw [h0]
    exact final_response_split _ _ _ _ hmem

/-- An environment in which analysis succeeds but its critique raises. -/
def envC7w : Env :=
  { query := "q", api := ⟨false, true, false, false, false⟩,
    anthropicKey := "sk-k", perplexityCall := .exn "x",
    claudeCall := .ok "A", critiqueCall := .error "bad critique",
    refineCall := .error "x", openaiCall := .error "x",
    synthesisCall := .error "x" }

/-- Witness for C7 at a concrete environment. -/
theorem c7_subloop_failure_witness :
    ("Self-Critique: " ++ "bad critique") ∈ (pipeline envC7w).agent_errors
    ∧ (pipeline envC7w).analysis_output = some ("**Deep Analysis:** " ++ "A")
    ∧ (pipeline envC7w).responses
        = (if perplexityOk envC7w then [researchText envC7w] else [])
          ++ ["**Deep Analysis:** " ++ "A"]
          ++ (if creativeOk envC7w then [creativeText envC7w] else [])
          ++ (if synthesisOk envC7w then [synthesisText envC7w] else [])
    ∧ (pipeline envC7w).responses.count ("**Deep Analysis:** " ++ "A") = 1
    ∧ ∃ pre post, (real_multi_agent_collaboration envC7w).response
        = pre ++ ("**Deep Analysis:** " ++ "A") ++ post :=
  c7_subloop_failure envC7w "A" "bad critique" rfl (by decide) (Or.inl rfl)

/-! ## Claim C8 -/

/-- An environment where analysis and creative succeed but research is
unavailable, so synthesis is attempted with no research output. -/
def envC8 : Env :=
  { query := "q", api := ⟨true, true, false, false, false⟩,
    anthropicKey := "sk-test", perplexityCall := .exn "x",
    claudeCall := .ok "A", critiqueCall := .error "c",
    refineCall := .error "r", openaiCall := .ok "G",
    synthesisCall := .ok "S" }

/-- C8 counterexample: with two prior successes but no research output, the
synthesis call is dispatched with the literal text `None` under the RESEARCH
heading — not an empty output as the claim states. -/
theorem c8_counterexample :
    ((pipeline envC8).sent.filter
        (fun c => c.provider == "claude-synthesis")).map ProviderCall.prompt
      = [synthPrompt envC8]
    ∧ str_contains (synthPrompt envC8) "RESEARCH:\nNone\n\nANALYSIS:" = true
    ∧ str_contains (synthPrompt envC8) "RESEARCH:\n\nANALYSIS:" = false := by
  decide

/-- C8 (amended): assuming the startup consistency property (an available
anthropic provider has a truthy key), the synthesis call is dispatched exactly
when at least two of the first three stages succeeded and anthropic is
available, and its single prompt concatenates the three prior outputs under
the headings RESEARCH, ANALYSIS and CREATIVE ALTERNATIVES in that order —
with an absent output rendered as the literal Python string `None`, not as an
empty string. -/
theorem c8_synthesis_gating (env : Env)
    (hk : env.api.anthropic = true → claudeKeyPresent env = true) :
    ((pipeline env).sent.filter
        (fun c => c.provider == "claude-synthesis")).map ProviderCall.prompt
      = (if 2 ≤ mainOkCount env ∧ env.api.anthropic = true
         then [synthPrompt env] else []) := by
  have hpre : (preSent env).filter (fun c => c.provider == "claude-synthesis")
      = [] := by
    unfold preSent
    by_cases h1 : env.api.perplexity = true <;>
    by_cases h2 : (env.api.anthropic && claudeKeyPresent env
        && claudeKeyFormatOk env) = true <;>
    by_cases h3 : analysisOk env = true <;>
    by_cases h4 : critiqueOk env = true <;>
    by_cases h5 : env.api.openai = true <;>
    simp +decide [h1, h2, h3, h4, h5, List.filter_append, List.filter]
  rw [pipeline_eq]
  by_cases h2' : 2 ≤ mainOkCount env
  · cases hapi : env.api.anthropic
    · simp [List.filter_append, hpre, synthAttempted, hapi, h2']
    · have hkp : claudeKeyPresent env = true := hk hapi
      simp +decide [List.filter_append, hpre, synthAttempted, hapi, hkp, h2',
        List.filter]
  · simp [List.filter_append, hpre, synthAttempted, h2']

/-- Witness for C8 (amended) at a concrete environment where synthesis runs. -/
theorem c8_synthesis_gating_witness :
    ((pipeline envC8).sent.filter
        (fun c => c.provider == "claude-synthesis")).map ProviderCall.prompt
      = (if 2 ≤ mainOkCount envC8 ∧ envC8.api.anthropic = true
         then [synthPrompt envC8] else []) :=
  c8_synthesis_gating envC8 (fun _ => by decide)

/-! ## Claim C9 -/

/-- C9: every query whose lower-cased text contains `startup` classifies as
`business_strategy`, and the specialized analysis (claude) prompt for such a
query contains the literal substring `Implementation timeline`. -/
theorem c9_startup_classification (q : String)
    (h : str_contains (lowerStr q) "startup" = true) :
    detect_query_type q = "business_strategy"
    ∧ str_contains (get_specialized_prompts q (detect_query_type q)).claude
        "Implementation timeline" = true := by
  have hd : detect_query_type q = "business_strategy" := by
    unfold detect_query_type
    simp [h]
  refine ⟨hd, ?_⟩
  rw [hd]
  unfold get_specialized_prompts
  have hb : ("business_strategy" == "business_strategy") = true := by decide
  simp only [hb, if_true]
  exact str_contains_append_left _ _ _ (by decide)

/-- Witness for C9 at a concrete startup query. -/
theorem c9_startup_classification_witness :
    detect_query_type "How do I grow my startup" = "business_strategy"
    ∧ str_contains
        (get_specialized_prompts "How do I grow my startup"
          (detect_query_type "How do I grow my startup")).claude
        "Implementation timeline" = true :=
  c9_startup_classification "How do I grow my startup" (by decide)
